import Mathlib

/-!
Shallow embedding of `src/main.py` (Google Cloud disk snapshot automation).

Python runtime values that can appear in the handler (the parsed JSON
payload and the fields extracted from it) are modelled by the `Json`
inductive below; Python `None` is `Json.null`.  The cloud provider's API
(disk listing, disk get, snapshot insert/get) and the wall clock
(`datetime.now().strftime`) are oracles collected in an `Env` structure.
Each embedded function returns the list of observable events it produced
(network calls attempted and lines printed) together with an
`Except Err _` result; `Except.error` models a raised Python exception.
-/

namespace GCSnap

/-- Python/JSON values flowing through the handler.  Python `None` is
`null`; a parsed JSON object is `obj` with its key/value pairs (keys of a
Python dict are distinct). -/
inductive Json where
  | null : Json
  | bool (b : Bool) : Json
  | num (n : Int) : Json
  | str (s : String) : Json
  | arr (elems : List Json) : Json
  | obj (fields : List (String × Json)) : Json

/-- Python `x is None`. -/
def Json.isNull : Json → Bool
  | .null => true
  | _ => false

/-- Whether the value is a JSON object (a Python dict). -/
def Json.isObj : Json → Bool
  | .obj _ => true
  | _ => false

/-- Python truthiness of a value (`if x:`). -/
def pyTruthy : Json → Bool
  | .null => false
  | .bool b => b
  | .num n => !(n == 0)
  | .str s => !s.isEmpty
  | .arr elems => !elems.isEmpty
  | .obj fields => !fields.isEmpty

/-- Python `str(x)` as used in f-string interpolation.  Only the scalar
cases are ever interpolated by the handler's log lines; the rendering of
lists and dicts is abbreviated. -/
def pyStr : Json → String
  | .null => "None"
  | .bool true => "True"
  | .bool false => "False"
  | .num n => toString n
  | .str s => s
  | .arr _ => "[...]"
  | .obj _ => "\x7b...\x7d"

/-- Python `str.lower()`, character by character (the month names the
code lowercases are ASCII). -/
def pyLower (s : String) : String := String.mk (s.data.map Char.toLower)

/-- Python `dict.get(key)`: the stored value, or `None` when absent. -/
def dictGet : List (String × Json) → String → Json
  | [], _ => Json.null
  | (k, v) :: rest, key => if k == key then v else dictGet rest key

/-- Python exceptions raised or propagated by the embedded code.
`providerError` stands for any exception raised inside the provider
client or while waiting on an operation (including timeouts). -/
inductive Err where
  | valueError (msg : String) : Err
  | runtimeError (msg : String) : Err
  | attributeError (msg : String) : Err
  | providerError (msg : String) : Err
deriving DecidableEq

/-- Python `str(e)` for the exceptions above. -/
def Err.text : Err → String
  | .valueError msg => msg
  | .runtimeError msg => msg
  | .attributeError msg => msg
  | .providerError msg => msg

/-- A warning attached to a completed extended operation. -/
structure Warning where
  code : String
  message : String
deriving DecidableEq

/-- A disk resource as used by the code: its name and its `self_link`. -/
structure Disk where
  name : String
  self_link : String
deriving DecidableEq

/-- A `compute_v1.Snapshot` resource as built by `create_snapshot`. -/
structure Snapshot where
  source_disk : String
  name : String
  storage_locations : List Json

/-- An `ExtendedOperation` handle.  `result t` is the outcome of
`operation.result(timeout=t)` (an exception or the result payload);
the remaining fields are the attributes the waiter inspects. -/
structure ExtendedOperation where
  result : Nat → Except Err Json
  error_code : Json
  error_message : String
  name : String
  exception : Option Err
  warnings : List Warning

/-- Observable events: lines printed to stdout / stderr and network calls
attempted against the provider. -/
inductive Event where
  | logOut (line : String) : Event
  | logErr (line : String) : Event
  | netZonalList (project zone : Json) : Event
  | netRegionalList (project region : Json) : Event
  | netDiskGet (project zone : Json) (disk : String) : Event
  | netRegionDiskGet (project region : Json) (disk : String) : Event
  | netSnapshotInsert (project : Json) (snapshot_resource : Snapshot) : Event
  | netSnapshotGet (project : Json) (snapshot_name : String) : Event

/-- The external world: outcomes of the provider API calls, and the
strings returned by `datetime.now().strftime('%B')` / `strftime('%Y')`
(the clock is stable for the duration of one request). -/
structure Env where
  disks_list : Json → Json → Except Err (List Disk)
  region_disks_list : Json → Json → Except Err (List Disk)
  disks_get : Json → Json → String → Except Err Disk
  region_disks_get : Json → Json → String → Except Err Disk
  snapshots_insert : Json → Snapshot → Except Err ExtendedOperation
  snapshots_get : Json → String → Except Err Snapshot
  strftime_B : String
  strftime_Y : String

/-- `wait_for_extended_operation(operation, verbose_name, timeout)`. -/
def wait_for_extended_operation (operation : ExtendedOperation)
    (verbose_name : String) (timeout : Nat) : List Event × Except Err Json :=
  match operation.result timeout with
  | .error e => ([Event.logErr ("Operation failed: " ++ e.text)], .error e)
  | .ok result =>
    if pyTruthy operation.error_code then
      ([Event.logErr ("Error during " ++ verbose_name ++ ": [Code: "
          ++ pyStr operation.error_code ++ "]: " ++ operation.error_message),
        Event.logErr ("Operation ID: " ++ operation.name)],
       .error (operation.exception.getD (Err.runtimeError operation.error_message)))
    else if !operation.warnings.isEmpty then
      (Event.logErr ("Warnings during " ++ verbose_name ++ ":\n")
         :: operation.warnings.map
              (fun w => Event.logErr (" - " ++ w.code ++ ": " ++ w.message)),
       .ok result)
    else
      ([], .ok result)

/-- `list_disks(project, zone, region)`.  The parameters are the Python
values passed in (defaults are `None`, i.e. `Json.null`). -/
def list_disks (env : Env) (project zone region : Json) :
    List Event × Except Err (List Disk) :=
  if pyTruthy zone then
    ([Event.netZonalList project zone], env.disks_list project zone)
  else if pyTruthy region then
    ([Event.netRegionalList project region], env.region_disks_list project region)
  else
    ([], .error (Err.valueError "Either `zone` or `region` must be provided."))

/-- `create_snapshot(project, disk_name, snapshot_name, zone=..., region=...,
location=..., disk_project=...)`. -/
def create_snapshot (env : Env) (project : Json) (disk_name snapshot_name : String)
    (zone region location disk_project : Json) : List Event × Except Err Snapshot :=
  if zone.isNull && region.isNull then
    ([], .error (Err.runtimeError "You need to specify `zone` or `region` for this function to work."))
  else if !zone.isNull && !region.isNull then
    ([], .error (Err.runtimeError "You can't set both `zone` and `region` parameters."))
  else
    let dp := if disk_project.isNull then project else disk_project
    let fetch : List Event × Except Err Disk :=
      if !zone.isNull then
        ([Event.netDiskGet dp zone disk_name], env.disks_get dp zone disk_name)
      else
        ([Event.netRegionDiskGet dp region disk_name], env.region_disks_get dp region disk_name)
    match fetch with
    | (ftr, .error e) => (ftr, .error e)
    | (ftr, .ok disk) =>
      let snapshot : Snapshot :=
        { source_disk := disk.self_link, name := snapshot_name,
          storage_locations := if pyTruthy location then [location] else [] }
      match env.snapshots_insert project snapshot with
      | .error e => (ftr ++ [Event.netSnapshotInsert project snapshot], .error e)
      | .ok operation =>
        match wait_for_extended_operation operation
            ("snapshot creation for " ++ disk_name) 300 with
        | (wtr, .error e) =>
          (ftr ++ [Event.netSnapshotInsert project snapshot] ++ wtr, .error e)
        | (wtr, .ok _) =>
          (ftr ++ [Event.netSnapshotInsert project snapshot] ++ wtr
             ++ [Event.netSnapshotGet project snapshot_name],
           env.snapshots_get project snapshot_name)

/-- One iteration of the loop in `create_snapshots_for_all_disks`: derive
the snapshot name, attempt creation with the per-disk try/except, and
print the success or failure line. -/
def snapshot_attempt (env : Env) (project zone : Json)
    (current_month_name current_year : String) (disk : Disk) : List Event :=
  let snapshot_name := disk.name ++ "-" ++ current_month_name ++ "-" ++ current_year ++ "-patching"
  match create_snapshot env project disk.name snapshot_name zone Json.null Json.null Json.null with
  | (ctr, .ok _) =>
    ctr ++ [Event.logOut ("Snapshot '" ++ snapshot_name
      ++ "' created successfully for disk '" ++ disk.name ++ "'.")]
  | (ctr, .error e) =>
    ctr ++ [Event.logOut ("Snapshot creation failed for disk '" ++ disk.name
      ++ "': " ++ e.text)]

/-- `create_snapshots_for_all_disks(project, zone)`: list the disks (an
exception there propagates), then run the per-disk loop; per-disk
exceptions are absorbed by `snapshot_attempt`, so the loop always
completes once listing succeeded. -/
def create_snapshots_for_all_disks (env : Env) (project zone : Json) :
    List Event × Except Err Unit :=
  match list_disks env project zone Json.null with
  | (tr, .error e) => (tr, .error e)
  | (tr, .ok disks) =>
    (tr ++ (disks.map
        (snapshot_attempt env project zone (pyLower env.strftime_B) env.strftime_Y)).flatten,
     .ok ())

/-- Body of `jsonify({"error": msg})`. -/
def errorJson (msg : String) : Json := Json.obj [("error", Json.str msg)]

/-- Body of `jsonify({"message": msg})`. -/
def messageJson (msg : String) : Json := Json.obj [("message", Json.str msg)]

/-- Outcome of the HTTP handler: a response with status and JSON body, or
an exception that escapes `main` (left to the hosting framework). -/
inductive Outcome where
  | resp (status : Nat) (body : Json) : Outcome
  | crash (e : Err) : Outcome

/-- An incoming HTTP request: the raw body (`request.get_data()`) and the
value `request.get_json(silent=True)` yields for it (`none` when the body
is not parseable as JSON, `some v` when it parses to the value `v`). -/
structure HttpRequest where
  body : String
  parsed : Option Json

/-- The HTTP entry point `main(request)`. -/
def main (env : Env) (req : HttpRequest) : List Event × Outcome :=
  if req.body.isEmpty then
    ([], Outcome.resp 400 (errorJson "Empty request body"))
  else
    match req.parsed with
    | none => ([], Outcome.resp 400 (errorJson "Invalid JSON payload"))
    | some request_json =>
      if !pyTruthy request_json then
        ([], Outcome.resp 400 (errorJson "Invalid JSON payload"))
      else
        match request_json with
        | Json.obj fields =>
          let project := dictGet fields "project"
          let zone := dictGet fields "zone"
          let received := Event.logErr ("Received request payload: project="
            ++ pyStr project ++ ", zone=" ++ pyStr zone)
          if !pyTruthy project || !pyTruthy zone then
            ([received], Outcome.resp 400 (errorJson "Missing 'project' or 'zone' in request"))
          else
            match create_snapshots_for_all_disks env project zone with
            | (tr, .ok _) =>
              (received :: tr, Outcome.resp 200 (messageJson "Snapshots created successfully"))
            | (tr, .error e) =>
              (received :: tr ++ [Event.logErr ("Snapshot creation failed: " ++ e.text)],
               Outcome.resp 500 (errorJson ("Snapshot creation failed: " ++ e.text)))
        | _ =>
          ([], Outcome.crash (Err.attributeError "object has no attribute 'get'"))

/-! ### Concrete fixtures used by witnesses and counterexamples -/

/-- An environment in which every provider call fails; the clock reports
March 2024.  The paths exercised with it never reach the provider. -/
def trivEnv : Env where
  disks_list := fun _ _ => Except.error (Err.providerError "unavailable")
  region_disks_list := fun _ _ => Except.error (Err.providerError "unavailable")
  disks_get := fun _ _ _ => Except.error (Err.providerError "unavailable")
  region_disks_get := fun _ _ _ => Except.error (Err.providerError "unavailable")
  snapshots_insert := fun _ _ => Except.error (Err.providerError "unavailable")
  snapshots_get := fun _ _ => Except.error (Err.providerError "unavailable")
  strftime_B := "March"
  strftime_Y := "2024"

/-- An environment whose disk listing returns no disks. -/
def okEnv : Env where
  disks_list := fun _ _ => Except.ok []
  region_disks_list := fun _ _ => Except.ok []
  disks_get := fun _ _ _ => Except.error (Err.providerError "unavailable")
  region_disks_get := fun _ _ _ => Except.error (Err.providerError "unavailable")
  snapshots_insert := fun _ _ => Except.error (Err.providerError "unavailable")
  snapshots_get := fun _ _ => Except.error (Err.providerError "unavailable")
  strftime_B := "March"
  strftime_Y := "2024"

def diskA : Disk := { name := "boot-disk", self_link := "link-boot-disk" }

def diskB : Disk := { name := "data-disk", self_link := "link-data-disk" }

/-- An operation that completed but carries its provider error channel. -/
def opErrC6 : ExtendedOperation where
  result := fun _ => Except.ok Json.null
  error_code := Json.str "QUOTA_EXCEEDED"
  error_message := "quota exceeded"
  name := "op-123"
  exception := none
  warnings := []

/-- An operation that completed successfully with one warning. -/
def opWarnC8 : ExtendedOperation where
  result := fun _ => Except.ok (Json.str "done")
  error_code := Json.null
  error_message := ""
  name := "op-456"
  exception := none
  warnings := [{ code := "W1", message := "careful" }]

/-- A successfully completing operation with no errors or warnings. -/
def opOk : ExtendedOperation where
  result := fun _ => Except.ok Json.null
  error_code := Json.null
  error_message := ""
  name := "op-000"
  exception := none
  warnings := []

/-- Listing returns two disks; fetching `boot-disk` raises, the rest of
the pipeline succeeds, so the first disk's creation fails while the
second one's can proceed. -/
def env4 : Env where
  disks_list := fun _ _ => Except.ok [diskA, diskB]
  region_disks_list := fun _ _ => Except.error (Err.providerError "unavailable")
  disks_get := fun _ _ d =>
    if d == "boot-disk" then Except.error (Err.providerError "disk fetch failed")
    else Except.ok diskB
  region_disks_get := fun _ _ _ => Except.error (Err.providerError "unavailable")
  snapshots_insert := fun _ _ => Except.ok opOk
  snapshots_get := fun _ _ => Except.ok { source_disk := "", name := "s", storage_locations := [] }
  strftime_B := "march"
  strftime_Y := "2024"

/-- Listing returns `boot-disk` and its fetch succeeds; the clock reports
March 2024. -/
def env5 : Env where
  disks_list := fun _ _ => Except.ok [diskA]
  region_disks_list := fun _ _ => Except.error (Err.providerError "unavailable")
  disks_get := fun _ _ _ => Except.ok diskA
  region_disks_get := fun _ _ _ => Except.error (Err.providerError "unavailable")
  snapshots_insert := fun _ _ => Except.ok opOk
  snapshots_get := fun _ _ => Except.ok { source_disk := "", name := "s", storage_locations := [] }
  strftime_B := "March"
  strftime_Y := "2024"

/-- A request whose body parses to a truthy non-object JSON value. -/
def reqArr : HttpRequest := { body := "[1]", parsed := some (Json.arr [Json.num 1]) }

/-- A request whose body is the empty JSON object. -/
def reqEmptyObj : HttpRequest := { body := "\x7b\x7d", parsed := some (Json.obj []) }

/-- A request whose body is an object holding only `project`. -/
def reqMissingZone : HttpRequest :=
  { body := "\x7b\"project\": \"p\"\x7d", parsed := some (Json.obj [("project", Json.str "p")]) }

/-- A fully valid request. -/
def reqGood : HttpRequest :=
  { body := "\x7b\"project\": \"p\", \"zone\": \"z\"\x7d",
    parsed := some (Json.obj [("project", Json.str "p"), ("zone", Json.str "z")]) }

/-! ### Claims about the Operation Waiter, Disk Lister and Snapshot Creator -/

/-- C6: whenever the operation handle resolves (its `result` call returns)
but carries a truthy provider error code, the waiter logs the error code,
message and operation id to stderr and then raises the operation's
attached exception, or `RuntimeError(error_message)` when none is
attached, instead of returning a result. -/
theorem c6_error_code_raises (operation : ExtendedOperation) (verbose_name : String)
    (timeout : Nat) (r : Json)
    (hres : operation.result timeout = Except.ok r)
    (hcode : pyTruthy operation.error_code = true) :
    wait_for_extended_operation operation verbose_name timeout =
      ([Event.logErr ("Error during " ++ verbose_name ++ ": [Code: "
          ++ pyStr operation.error_code ++ "]: " ++ operation.error_message),
        Event.logErr ("Operation ID: " ++ operation.name)],
       Except.error (operation.exception.getD (Err.runtimeError operation.error_message))) := by
  unfold wait_for_extended_operation
  rw [hres]
  simp [hcode]

/-- C6 witness: a concrete completed operation with error code set and no
attached exception makes the waiter log both lines and raise the generic
runtime failure. -/
theorem c6_witness :
    wait_for_extended_operation opErrC6 "snapshot creation for disk-1" 300 =
      ([Event.logErr "Error during snapshot creation for disk-1: [Code: QUOTA_EXCEEDED]: quota exceeded",
        Event.logErr "Operation ID: op-123"],
       Except.error (Err.runtimeError "quota exceeded")) :=
  c6_error_code_raises opErrC6 "snapshot creation for disk-1" 300 Json.null rfl rfl

/-- C8: whenever the operation handle resolves with a falsy error code
but non-empty warnings, the waiter logs each warning's code and message
to stderr and still returns the operation's result without raising. -/
theorem c8_warnings_nonfatal (operation : ExtendedOperation) (verbose_name : String)
    (timeout : Nat) (r : Json)
    (hres : operation.result timeout = Except.ok r)
    (hcode : pyTruthy operation.error_code = false)
    (hw : operation.warnings.isEmpty = false) :
    (wait_for_extended_operation operation verbose_name timeout).2 = Except.ok r ∧
    ∀ w ∈ operation.warnings,
      Event.logErr (" - " ++ w.code ++ ": " ++ w.message)
        ∈ (wait_for_extended_operation operation verbose_name timeout).1 := by
  unfold wait_for_extended_operation
  rw [hres]
  simp [hcode, hw]
  intro w hwmem
  exact Or.inr ⟨w, hwmem, rfl⟩

/-- C8 witness: a concrete successful operation with one warning has that
warning's code and message logged and its result returned. -/
theorem c8_witness :
    (wait_for_extended_operation opWarnC8 "snapshot creation for disk-1" 300).2
        = Except.ok (Json.str "done") ∧
    Event.logErr " - W1: careful"
      ∈ (wait_for_extended_operation opWarnC8 "snapshot creation for disk-1" 300).1 := by
  have h := c8_warnings_nonfatal opWarnC8 "snapshot creation for disk-1" 300
    (Json.str "done") rfl rfl rfl
  exact ⟨h.1, h.2 { code := "W1", message := "careful" } (List.mem_singleton.mpr rfl)⟩

/-- C7: calling the snapshot creator with zone and region both `None`, or
both non-`None`, raises a `RuntimeError` before any network call (no disk
fetch, snapshot insert or wait event is emitted) and yields no snapshot. -/
theorem c7_zone_region_validation (env : Env) (project : Json)
    (disk_name snapshot_name : String) (zone region location disk_project : Json)
    (h : (zone.isNull && region.isNull) = true ∨ (!zone.isNull && !region.isNull) = true) :
    (create_snapshot env project disk_name snapshot_name zone region location disk_project).1 = [] ∧
    (create_snapshot env project disk_name snapshot_name zone region location disk_project).2 =
      Except.error (Err.runtimeError (if zone.isNull then
        "You need to specify `zone` or `region` for this function to work."
      else "You can't set both `zone` and `region` parameters.")) := by
  rcases h with h | h
  · rw [Bool.and_eq_true] at h
    obtain ⟨hz, hr⟩ := h
    constructor <;> simp [create_snapshot, hz, hr]
  · rw [Bool.and_eq_true] at h
    obtain ⟨hz, hr⟩ := h
    rw [Bool.not_eq_true'] at hz hr
    constructor <;> simp [create_snapshot, hz, hr]

/-- C7 witness: both zone and region set on a concrete call fails with
the configuration error and an empty event trace. -/
theorem c7_witness :
    (create_snapshot trivEnv (Json.str "p") "d" "s"
        (Json.str "z") (Json.str "r") Json.null Json.null).1 = [] ∧
    (create_snapshot trivEnv (Json.str "p") "d" "s"
        (Json.str "z") (Json.str "r") Json.null Json.null).2 =
      Except.error (Err.runtimeError "You can't set both `zone` and `region` parameters.") := by
  have h := c7_zone_region_validation trivEnv (Json.str "p") "d" "s"
    (Json.str "z") (Json.str "r") Json.null Json.null (Or.inr rfl)
  exact ⟨h.1, h.2⟩

/-- C9: calling the disk lister with falsy zone and falsy region raises
`ValueError` with no listing call attempted (empty event trace). -/
theorem c9_no_scope_error (env : Env) (project zone region : Json)
    (hz : pyTruthy zone = false) (hr : pyTruthy region = false) :
    list_disks env project zone region =
      ([], Except.error (Err.valueError "Either `zone` or `region` must be provided.")) := by
  simp [list_disks, hz, hr]

/-- C9 witness: neither zone nor region supplied on a concrete call. -/
theorem c9_witness :
    list_disks trivEnv (Json.str "p") Json.null Json.null =
      ([], Except.error (Err.valueError "Either `zone` or `region` must be provided.")) :=
  c9_no_scope_error trivEnv (Json.str "p") Json.null Json.null rfl rfl

/-- C10: when zone and region are both truthy, no error is raised by the
lister itself: the zonal listing client is used and the region argument
is ignored. -/
theorem c10_zone_precedence (env : Env) (project zone region : Json)
    (hz : pyTruthy zone = true) (_hr : pyTruthy region = true) :
    list_disks env project zone region =
      ([Event.netZonalList project zone], env.disks_list project zone) := by
  simp [list_disks, hz]

/-- C10 witness: both zone and region supplied on a concrete call use the
zonal listing client with the zone argument only. -/
theorem c10_witness :
    list_disks trivEnv (Json.str "p") (Json.str "z") (Json.str "r") =
      ([Event.netZonalList (Json.str "p") (Json.str "z")],
       Except.error (Err.providerError "unavailable")) :=
  c10_zone_precedence trivEnv (Json.str "p") (Json.str "z") (Json.str "r") rfl rfl

/-! ### Claims about the Request Handler -/

/-- C1 counterexample: the body `[1]` is non-empty and parses as JSON but
not as a JSON object, yet the handler does not return 400 with
"Invalid JSON payload" — the attribute access on the non-dict value
raises instead. -/
theorem c1_counterexample :
    (main trivEnv reqArr).2 ≠ Outcome.resp 400 (errorJson "Invalid JSON payload") := by
  intro hc
  have h : (main trivEnv reqArr).2
      = Outcome.crash (Err.attributeError "object has no attribute 'get'") := rfl
  rw [h] at hc
  exact Outcome.noConfusion hc

/-- C1 (amended): for a non-empty body, the handler returns 400
"Invalid JSON payload" when the body does not parse as JSON or parses to
a Python-falsy value (null, false, 0, "", [], or the empty object); when
the body parses to a truthy non-object value the handler instead raises
an uncaught `AttributeError` and returns no response. -/
theorem c1_amended_payload_validation (env : Env) (req : HttpRequest)
    (hbody : req.body.isEmpty = false) :
    (req.parsed = none →
      (main env req).2 = Outcome.resp 400 (errorJson "Invalid JSON payload")) ∧
    (∀ v, req.parsed = some v → pyTruthy v = false →
      (main env req).2 = Outcome.resp 400 (errorJson "Invalid JSON payload")) ∧
    (∀ v, req.parsed = some v → pyTruthy v = true → v.isObj = false →
      (main env req).2 = Outcome.crash (Err.attributeError "object has no attribute 'get'")) := by
  refine ⟨fun hp => ?_, fun v hp hf => ?_, fun v hp ht hobj => ?_⟩
  · simp [main, hbody, hp]
  · simp [main, hbody, hp, hf]
  · cases v <;> simp_all [main, Json.isObj]

/-- C1 witness: at the counterexample input the amended behaviour holds —
the handler crashes with the attribute error. -/
theorem c1_witness :
    (main trivEnv reqArr).2 = Outcome.crash (Err.attributeError "object has no attribute 'get'") :=
  (c1_amended_payload_validation trivEnv reqArr rfl).2.2 (Json.arr [Json.num 1]) rfl rfl rfl

/-- C2 counterexample: the body `{}` parses as a JSON object in which
`project` and `zone` are absent, yet the handler does not return 400 with
"Missing 'project' or 'zone' in request" — the empty object is falsy in
Python, so it is rejected earlier as "Invalid JSON payload". -/
theorem c2_counterexample :
    (main trivEnv reqEmptyObj).2
      ≠ Outcome.resp 400 (errorJson "Missing 'project' or 'zone' in request") := by
  intro hc
  have h : (main trivEnv reqEmptyObj).2
      = Outcome.resp 400 (errorJson "Invalid JSON payload") := rfl
  rw [h] at hc
  simp [errorJson] at hc

/-- C2 (amended): for a non-empty body parsing to a non-empty JSON
object, if `project` or `zone` is absent (Python `None`) or the empty
string, the handler returns 400 "Missing 'project' or 'zone' in request"
and the batch orchestrator is never invoked: the only event produced is
the received-payload log line (no provider call is made). -/
theorem c2_amended_missing_fields (env : Env) (req : HttpRequest)
    (fields : List (String × Json))
    (hbody : req.body.isEmpty = false)
    (hparsed : req.parsed = some (Json.obj fields))
    (hne : fields.isEmpty = false)
    (hmiss : dictGet fields "project" = Json.null ∨ dictGet fields "project" = Json.str ""
           ∨ dictGet fields "zone" = Json.null ∨ dictGet fields "zone" = Json.str "") :
    (main env req).2 = Outcome.resp 400 (errorJson "Missing 'project' or 'zone' in request") ∧
    (main env req).1 = [Event.logErr ("Received request payload: project="
        ++ pyStr (dictGet fields "project") ++ ", zone=" ++ pyStr (dictGet fields "zone"))] := by
  have hobjT : pyTruthy (Json.obj fields) = true := by
    simp [pyTruthy, hne]
  have hF : pyTruthy (dictGet fields "project") = false
      ∨ pyTruthy (dictGet fields "zone") = false := by
    rcases hmiss with h | h | h | h
    · exact Or.inl (by rw [h]; rfl)
    · exact Or.inl (by rw [h]; rfl)
    · exact Or.inr (by rw [h]; rfl)
    · exact Or.inr (by rw [h]; rfl)
  rcases hF with hF | hF <;> constructor <;> simp [main, hbody, hparsed, hobjT, hF]

/-- C2 witness: an object holding only `project` yields the 400 response
and a trace holding nothing but the received-payload log line. -/
theorem c2_witness :
    (main trivEnv reqMissingZone).2
        = Outcome.resp 400 (errorJson "Missing 'project' or 'zone' in request") ∧
    (main trivEnv reqMissingZone).1
        = [Event.logErr "Received request payload: project=p, zone=None"] := by
  have h := c2_amended_missing_fields trivEnv reqMissingZone [("project", Json.str "p")]
    rfl rfl rfl (Or.inr (Or.inr (Or.inl rfl)))
  exact ⟨h.1, h.2⟩

/-- C3: for a validated request (non-empty body, JSON-object payload,
truthy `project` and `zone`), the handler returns 200 "Snapshots created
successfully" exactly when the batch orchestrator returns normally, and
returns 500 with "Snapshot creation failed: " followed by the exception
text exactly when the orchestrator call raises. -/
theorem c3_response_iff_orchestrator (env : Env) (req : HttpRequest)
    (fields : List (String × Json))
    (hbody : req.body.isEmpty = false)
    (hparsed : req.parsed = some (Json.obj fields))
    (hp : pyTruthy (dictGet fields "project") = true)
    (hz : pyTruthy (dictGet fields "zone") = true) :
    ((main env req).2 = Outcome.resp 200 (messageJson "Snapshots created successfully")
      ↔ (create_snapshots_for_all_disks env (dictGet fields "project")
           (dictGet fields "zone")).2 = Except.ok ()) ∧
    (∀ e, (create_snapshots_for_all_disks env (dictGet fields "project")
             (dictGet fields "zone")).2 = Except.error e →
      (main env req).2 = Outcome.resp 500 (errorJson ("Snapshot creation failed: " ++ e.text))) := by
  have hobjT : pyTruthy (Json.obj fields) = true := by
    cases fields with
    | nil => simp [dictGet, pyTruthy] at hp
    | cons a l => rfl
  rcases horch : create_snapshots_for_all_disks env (dictGet fields "project")
      (dictGet fields "zone") with ⟨tr, res⟩
  cases res with
  | ok u =>
    cases u
    have hmain : (main env req).2
        = Outcome.resp 200 (messageJson "Snapshots created successfully") := by
      simp [main, hbody, hparsed, hobjT, hp, hz, horch]
    refine ⟨⟨fun _ => rfl, fun _ => hmain⟩, fun e he => ?_⟩
    simp at he
  | error e' =>
    have hmain : (main env req).2
        = Outcome.resp 500 (errorJson ("Snapshot creation failed: " ++ e'.text)) := by
      simp [main, hbody, hparsed, hobjT, hp, hz, horch]
    constructor
    · constructor
      · intro hm
        rw [hmain] at hm
        simp [errorJson, messageJson] at hm
      · intro he; simp at he
    · intro e he
      have heq : e' = e := by simpa using he
      subst heq
      exact hmain

/-- C3 witness: a valid request in an environment whose listing succeeds
(with no disks) yields the 200 success response. -/
theorem c3_witness :
    (main okEnv reqGood).2 = Outcome.resp 200 (messageJson "Snapshots created successfully") :=
  ((c3_response_iff_orchestrator okEnv reqGood
      [("project", Json.str "p"), ("zone", Json.str "z")] rfl rfl rfl rfl).1).mpr rfl

/-! ### Claims about the Batch Orchestrator -/

/-- When disk listing succeeds, the orchestrator runs the per-disk loop
over the whole list and returns normally. -/
theorem create_snapshots_eq (env : Env) (project zone : Json)
    (tr : List Event) (disks : List Disk)
    (h : list_disks env project zone Json.null = (tr, Except.ok disks)) :
    create_snapshots_for_all_disks env project zone =
      (tr ++ (disks.map
          (snapshot_attempt env project zone (pyLower env.strftime_B) env.strftime_Y)).flatten,
       Except.ok ()) := by
  unfold create_snapshots_for_all_disks
  rw [h]

/-- With a non-`None` zone and a successful disk fetch, the snapshot
creator's trace contains the snapshot-insert call carrying the built
snapshot resource, whatever the insert and wait outcomes are. -/
theorem create_snapshot_insert_mem (env : Env) (project zone : Json)
    (disk_name snapshot_name : String) (disk : Disk)
    (hz : zone.isNull = false)
    (hget : env.disks_get project zone disk_name = Except.ok disk) :
    Event.netSnapshotInsert project
        { source_disk := disk.self_link, name := snapshot_name, storage_locations := [] }
      ∈ (create_snapshot env project disk_name snapshot_name zone Json.null Json.null Json.null).1 := by
  unfold create_snapshot
  rw [hz]
  simp [pyTruthy, Json.isNull, hget]
  rcases hins : env.snapshots_insert project
      { source_disk := disk.self_link, name := snapshot_name, storage_locations := [] }
    with e | operation
  · simp [hins]
  · rcases hwait : wait_for_extended_operation operation
        ("snapshot creation for " ++ disk_name) 300 with ⟨wtr, wres⟩
    cases wres <;> simp [hins, hwait]

/-- C4: whenever disk listing succeeds, the orchestrator returns normally
(no per-disk exception propagates to its caller) and the trace contains,
for each listed disk, that disk's complete creation attempt — the
per-disk try/except with its success or failure log line — regardless of
any other disk's outcome. -/
theorem c4_partial_failure_isolation (env : Env) (project zone : Json)
    (tr : List Event) (disks : List Disk)
    (h : list_disks env project zone Json.null = (tr, Except.ok disks)) :
    (create_snapshots_for_all_disks env project zone).2 = Except.ok () ∧
    ∀ disk ∈ disks,
      List.IsInfix
        (snapshot_attempt env project zone (pyLower env.strftime_B) env.strftime_Y disk)
        (create_snapshots_for_all_disks env project zone).1 := by
  rw [create_snapshots_eq env project zone tr disks h]
  refine ⟨rfl, fun disk hd => ?_⟩
  have h1 : snapshot_attempt env project zone (pyLower env.strftime_B) env.strftime_Y disk
      ∈ disks.map (snapshot_attempt env project zone (pyLower env.strftime_B) env.strftime_Y) :=
    List.mem_map_of_mem _ hd
  exact List.IsInfix.trans (List.infix_of_mem_flatten h1)
    ( List.IsSuffix.isInfix (List.suffix_append tr _))

/-- C4 witness: with listing returning two disks and the first disk's
fetch raising, the orchestrator still returns normally and both disks'
creation attempts appear in the trace. -/
theorem c4_witness :
    (create_snapshots_for_all_disks env4 (Json.str "p") (Json.str "z")).2 = Except.ok () ∧
    List.IsInfix
      (snapshot_attempt env4 (Json.str "p") (Json.str "z") (pyLower env4.strftime_B) env4.strftime_Y diskA)
      (create_snapshots_for_all_disks env4 (Json.str "p") (Json.str "z")).1 ∧
    List.IsInfix
      (snapshot_attempt env4 (Json.str "p") (Json.str "z") (pyLower env4.strftime_B) env4.strftime_Y diskB)
      (create_snapshots_for_all_disks env4 (Json.str "p") (Json.str "z")).1 := by
  have h := c4_partial_failure_isolation env4 (Json.str "p") (Json.str "z")
    [Event.netZonalList (Json.str "p") (Json.str "z")] [diskA, diskB] rfl
  exact ⟨h.1, h.2 diskA (List.mem_cons_self diskA [diskB]),
    h.2 diskB (List.mem_cons_of_mem diskA (List.mem_cons_self diskB []))⟩

/-- C5: for every disk the orchestrator processes whose fetch succeeds,
the snapshot resource submitted for creation is named with the disk name,
the lowercased full month name from the clock, the year from the clock,
and the fixed "-patching" suffix. -/
theorem c5_snapshot_name (env : Env) (project zone : Json) (tr : List Event)
    (disks : List Disk) (disk : Disk) (fetched : Disk)
    (hz : zone.isNull = false)
    (hlist : list_disks env project zone Json.null = (tr, Except.ok disks))
    (hd : disk ∈ disks)
    (hget : env.disks_get project zone disk.name = Except.ok fetched) :
    Event.netSnapshotInsert project
        { source_disk := fetched.self_link,
          name := disk.name ++ "-" ++ (pyLower env.strftime_B) ++ "-" ++ env.strftime_Y ++ "-patching",
          storage_locations := [] }
      ∈ (create_snapshots_for_all_disks env project zone).1 := by
  rw [create_snapshots_eq env project zone tr disks hlist]
  have hmem1 := create_snapshot_insert_mem env project zone disk.name
    (disk.name ++ "-" ++ (pyLower env.strftime_B) ++ "-" ++ env.strftime_Y ++ "-patching")
    fetched hz hget
  have hmem2 : Event.netSnapshotInsert project
      { source_disk := fetched.self_link,
        name := disk.name ++ "-" ++ (pyLower env.strftime_B) ++ "-" ++ env.strftime_Y ++ "-patching",
        storage_locations := [] }
      ∈ snapshot_attempt env project zone (pyLower env.strftime_B) env.strftime_Y disk := by
    unfold snapshot_attempt
    rcases hcs : create_snapshot env project disk.name
        (disk.name ++ "-" ++ (pyLower env.strftime_B) ++ "-" ++ env.strftime_Y ++ "-patching")
        zone Json.null Json.null Json.null with ⟨ctr, cres⟩
    rw [hcs] at hmem1
    cases cres <;> simp [hcs] <;> exact hmem1
  exact List.mem_append.mpr (Or.inr (List.mem_flatten.mpr
    ⟨snapshot_attempt env project zone (pyLower env.strftime_B) env.strftime_Y disk,
     List.mem_map_of_mem _ hd, hmem2⟩))

/-- C5 witness: for disk `boot-disk` with the clock returning March 2024,
the submitted snapshot is named `boot-disk-march-2024-patching`. -/
theorem c5_witness :
    Event.netSnapshotInsert (Json.str "p")
        { source_disk := "link-boot-disk", name := "boot-disk-march-2024-patching",
          storage_locations := [] }
      ∈ (create_snapshots_for_all_disks env5 (Json.str "p") (Json.str "z")).1 := by
  have h := c5_snapshot_name env5 (Json.str "p") (Json.str "z")
    [Event.netZonalList (Json.str "p") (Json.str "z")] [diskA] diskA diskA
    rfl rfl (List.mem_singleton.mpr rfl) rfl
  exact h

end GCSnap
